import Mathlib

/-
Verification development for the walk-the-dog web-application scaffold.

The repository slice holds two source files:
  * app/routes/_index.tsx — a single Remix route component `Index` that
    guards a one-time call to the external WebAssembly initializer `init`
    behind a `useRef<boolean>(false)` flag, and renders a div containing a
    heading and a canvas.  The same file carries the project Makefile
    (default goal `help`, targets `help`, `get_git_tag`, `build-core`).
  * vite.config.ts — the bundler configuration: three plugins (wasm, remix,
    tsconfigPaths) and a dev-server filesystem allow-list.

Everything below is a shallow embedding of that source: component state is
explicit state passing, the Makefile is a list of targets with structured
recipe lines plus the raw text lines that the `help` pipeline greps, and
the render output is the static element tree of the JSX.
-/

/- ================================================================
   Part 1: the Index route component (app/routes/_index.tsx, lines 12-28)
   ================================================================ -/

/-- State of one mounted `Index` component instance.  `initialized` embeds
the `useRef<boolean>` cell `initialized` of the source; `initCalls` is the
call counter for the external `init()` routine (the instrumentation the
spec's testable properties assert on). -/
structure IndexState where
  initialized : Bool
  initCalls : Nat
deriving DecidableEq, Repr

/-- Mounting an instance: `useRef<boolean>(false)` creates the guard unset,
and no call to `init()` has happened yet. -/
def mountIndex : IndexState := ⟨false, 0⟩

/-- One invocation of the `useEffect` callback (source lines 15-20), in the
case where `init()` returns normally: if the guard is unset, call `init()`
(count it) and set the guard; otherwise do nothing. -/
def useEffectBody (s : IndexState) : IndexState :=
  if !s.initialized then ⟨true, s.initCalls + 1⟩ else s

/-- One invocation of the `useEffect` callback when `init()` may raise.
The source calls `init()` on line 17 and only afterwards assigns
`initialized.current = true` on line 18, so when the call throws, the call
has happened (the counter moves) but the guard stays unset. -/
def useEffectBodyThrow (initThrows : Bool) (s : IndexState) : IndexState :=
  if !s.initialized then
    if initThrows then ⟨false, s.initCalls + 1⟩ else ⟨true, s.initCalls + 1⟩
  else s

/-- The state of an instance after `n` invocations of the lifecycle hook
following a mount, with `init()` always returning normally. -/
def runEffects : Nat → IndexState
  | 0 => mountIndex
  | n + 1 => useEffectBody (runEffects n)

/-- The state of an instance after a chronological sequence of lifecycle
invocations, the k-th entry telling whether `init()` throws on the k-th
invocation (relevant only when the guard is still unset there). -/
def runEffectsThrow (bs : List Bool) : IndexState :=
  bs.foldl (fun s b => useEffectBodyThrow b s) mountIndex

/-- Remounting after an unmount: the new instance gets a fresh
`useRef<boolean>(false)` cell, whatever the discarded instance's state was. -/
def remountIndex (_old : IndexState) : IndexState := mountIndex

/-- After at least one successful invocation the state is pinned. -/
theorem runEffects_succ (n : Nat) : runEffects (n + 1) = ⟨true, 1⟩ := by
  induction n with
  | zero => rfl
  | succ m ih =>
      show useEffectBody (runEffects (m + 1)) = _
      rw [ih]
      rfl

/-- A set guard absorbs every further invocation, throwing or not. -/
theorem foldl_of_initialized (bs : List Bool) :
    ∀ k, bs.foldl (fun s b => useEffectBodyThrow b s) ⟨true, k⟩ = ⟨true, k⟩ := by
  induction bs with
  | nil => intro k; rfl
  | cons b rest ih =>
      intro k
      have h : useEffectBodyThrow b ⟨true, k⟩ = ⟨true, k⟩ := by cases b <;> rfl
      rw [List.foldl_cons, h]
      exact ih k

/-- C1: for every instance of the Index route, across any number N ≥ 1 of
useEffect invocations, `init()` is called exactly once: the mount leaves the
guard unset, the first invocation calls `init()` and sets the guard, and
every later invocation leaves the state untouched. -/
theorem index_init_exactly_once (n : Nat) :
    (runEffects 0).initialized = false ∧
    (runEffects (n + 1)).initCalls = 1 ∧
    (runEffects (n + 1)).initialized = true ∧
    runEffects (n + 2) = runEffects (n + 1) := by
  refine ⟨rfl, ?_, ?_, ?_⟩
  · rw [runEffects_succ]
  · rw [runEffects_succ]
  · rw [runEffects_succ n, runEffects_succ (n + 1)]

/-- C2: when `init()` throws on an invocation that found the guard unset,
the guard stays unset (the flag assignment follows the call), the call was
still attempted, and the next invocation calls `init()` again; concretely a
throw-then-success run reaches two calls, while any run of N ≥ 1 non-raising
invocations calls exactly once. -/
theorem index_init_retry_after_throw (k n : Nat) (b : Bool) :
    (useEffectBodyThrow true ⟨false, k⟩).initialized = false ∧
    (useEffectBodyThrow true ⟨false, k⟩).initCalls = k + 1 ∧
    (useEffectBodyThrow b (useEffectBodyThrow true ⟨false, k⟩)).initCalls = k + 2 ∧
    (runEffectsThrow [true, false]).initCalls = 2 ∧
    (runEffectsThrow (List.replicate (n + 1) false)).initCalls = 1 := by
  refine ⟨rfl, rfl, ?_, rfl, ?_⟩
  · cases b <;> rfl
  · show (List.foldl _ mountIndex _).initCalls = 1
    rw [List.replicate_succ, List.foldl_cons]
    have h1 : useEffectBodyThrow false mountIndex = ⟨true, 1⟩ := rfl
    rw [h1, foldl_of_initialized]

/-- C3: the guard flag is monotone over an instance's lifetime: unset at
mount, set by the first successful `init()` call, and never reset by any
later invocation, whether that invocation's `init()` would throw or not. -/
theorem index_guard_monotone (k : Nat) (b : Bool) :
    mountIndex.initialized = false ∧
    (useEffectBodyThrow false ⟨false, k⟩).initialized = true ∧
    (useEffectBodyThrow b ⟨true, k⟩).initialized = true := by
  refine ⟨rfl, rfl, ?_⟩
  cases b <;> rfl

/-- C4: guard state is per-instance: a fresh instance obtained by remounting
after any previous instance starts with its guard unset and its first
lifecycle invocation independently calls the initializer exactly once. -/
theorem index_guard_per_instance (old : IndexState) :
    (remountIndex old).initialized = false ∧
    (remountIndex old).initCalls = 0 ∧
    (useEffectBody (remountIndex old)).initCalls = 1 ∧
    (useEffectBody (remountIndex old)).initialized = true := by
  exact ⟨rfl, rfl, rfl, rfl⟩

/- ================================================================
   Part 2: the route's render output (app/routes/_index.tsx, lines 22-27)
   ================================================================ -/

/-- Value of a JSX attribute: a string literal or a numeric expression. -/
inductive AttrVal where
  | str (s : String)
  | num (n : Nat)
deriving DecidableEq, Repr

/-- One element of the static JSX tree: its tag, its attributes in source
order, and its literal text content when it has one. -/
structure Elem where
  tag : String
  attrs : List (String × AttrVal)
  text : Option String
deriving DecidableEq, Repr

/-- The static render output of `Index` (source lines 22-27): a div wrapping
a heading and a canvas. -/
structure RenderTree where
  root : Elem
  children : List Elem
deriving DecidableEq, Repr

/-- The element tree returned by the `Index` component. -/
def IndexRender : RenderTree :=
  { root := { tag := "div", attrs := [("className", .str "font-sans p-4")], text := none },
    children :=
      [ { tag := "h1", attrs := [("className", .str "text-3xl")],
          text := some "Welcome to Remix" },
        { tag := "canvas",
          attrs := [("id", .str "canvas"), ("width", .num 1200), ("height", .num 600)],
          text := none } ] }

/-- Every element occurring in the render output of `Index`. -/
def indexRenderElems : List Elem := IndexRender.root :: IndexRender.children

/-- C5 fails as stated: the render output of `Index` contains no paragraph
element at all, against the claim that it contains one. -/
theorem index_render_no_paragraph :
    ¬ ∃ e ∈ indexRenderElems, e.tag = "p" := by decide

/-- C5 amended: the render output contains a heading and a canvas element
whose width is fixed at 1200 and height at 600 and whose id attribute is
"canvas", and it contains no paragraph element. -/
theorem index_render_amended :
    (∃ e ∈ indexRenderElems, e.tag = "h1") ∧
    (∃ e ∈ indexRenderElems, e.tag = "canvas" ∧
        e.attrs = [("id", .str "canvas"), ("width", .num 1200), ("height", .num 600)]) ∧
    ¬ ∃ e ∈ indexRenderElems, e.tag = "p" := by decide

/- ================================================================
   Part 3: the bundler configuration (vite.config.ts)
   ================================================================ -/

/-- The future-flags object passed to the remix plugin (vite.config.ts,
lines 10-14). -/
structure RemixFuture where
  v3_fetcherPersist : Bool
  v3_relativeSplatPath : Bool
  v3_throwAbortReason : Bool
deriving DecidableEq, Repr

/-- A plugin activated by the bundler configuration. -/
inductive VitePlugin where
  | wasm
  | remix (future : RemixFuture)
  | tsconfigPaths
deriving DecidableEq, Repr

/-- The package each plugin value comes from, for stating activation order. -/
def pluginName : VitePlugin → String
  | .wasm => "wasm"
  | .remix _ => "remix"
  | .tsconfigPaths => "tsconfigPaths"

/-- The `server.fs` block of the configuration. -/
structure ServerFs where
  allow : List String
deriving DecidableEq, Repr

/-- The `server` block of the configuration. -/
structure ServerConfig where
  fs : ServerFs
deriving DecidableEq, Repr

/-- The whole object passed to `defineConfig` (vite.config.ts, lines 6-23). -/
structure ViteConfig where
  plugins : List VitePlugin
  server : ServerConfig
deriving DecidableEq, Repr

/-- The exported bundler configuration. -/
def viteConfig : ViteConfig :=
  { plugins :=
      [ .wasm,
        .remix { v3_fetcherPersist := true, v3_relativeSplatPath := true,
                 v3_throwAbortReason := true },
        .tsconfigPaths ],
    server := { fs := { allow := [".", "../core"] } } }

/-- C6: the configuration activates exactly three plugins, in the order
WebAssembly support, then the framework compiler, then the path-alias
resolver, and the dev-server filesystem allow-list is exactly the two
directories "." and "../core". -/
theorem vite_config_plugins_and_allow :
    viteConfig.plugins.map pluginName = ["wasm", "remix", "tsconfigPaths"] ∧
    viteConfig.plugins.length = 3 ∧
    viteConfig.server.fs.allow = [".", "../core"] ∧
    viteConfig.server.fs.allow.length = 2 := by decide

/- ================================================================
   Part 4: the Makefile (carried in the same source file, lines 29-48)
   ================================================================ -/

/-- Whether a character is in the class matched by the pattern `\s` of the
help target grep (POSIX space class). -/
def isSpaceClass (c : Char) : Bool :=
  c == ' ' || c == '\t' || c == '\n' || c == '\x0b' || c == '\x0c' || c == '\r'

/-- Whether the character list starts with `:` followed by a space-class
character, `##`, and another space-class character — the tail of the help
grep pattern. -/
def startsWithDocMark : List Char → Bool
  | ':' :: c1 :: '#' :: '#' :: c2 :: _ => isSpaceClass c1 && isSpaceClass c2
  | _ => false

/-- Whether some position of the character list starts the documentation
mark. -/
def hasDocMark : List Char → Bool
  | [] => false
  | c :: rest => startsWithDocMark (c :: rest) || hasDocMark rest

/-- The grep pattern of the help target: a line matches
`^[a-zA-Z].*:\s##\s.*$` exactly when its first character is an ASCII letter
and the documentation mark occurs at some later position. -/
def matchesHelpRegex (line : String) : Bool :=
  match line.toList with
  | [] => false
  | c :: rest => c.isAlpha && hasDocMark rest

/-- The sed stage of the help pipeline, `s/\\//g`: delete every backslash. -/
def sedStripBackslashes (s : String) : String :=
  String.mk (s.toList.filter (fun c => c != '\\'))

/-- Whether the character list starts with the awk field separator
`: ## `. -/
def startsWithFieldSep : List Char → Bool
  | ':' :: ' ' :: '#' :: '#' :: ' ' :: _ => true
  | _ => false

/-- Split a character list at the first occurrence of the awk field
separator `: ## `, dropping the separator itself. -/
def splitAtFieldSep : List Char → List Char × List Char
  | [] => ([], [])
  | c :: rest =>
      if startsWithFieldSep (c :: rest) then ([], (c :: rest).drop 5)
      else
        let p := splitAtFieldSep rest
        (c :: p.1, p.2)

/-- The awk stage of the help pipeline (`FS = ": ## "`): the first two
fields of a line, i.e. the target name and its description. -/
def awkHelpFields (s : String) : String × String :=
  let p := splitAtFieldSep s.toList
  (String.mk p.1, String.mk p.2)

/-- The grep stage of the help pipeline over the makefile's lines. -/
def grepHelpFilter (lines : List String) : List String :=
  lines.filter matchesHelpRegex

/-- The full help pipeline: grep for annotated definition lines, strip
backslashes, split each survivor into target name and description. -/
def helpOutput (lines : List String) : List (String × String) :=
  (grepHelpFilter lines).map (fun l => awkHelpFields (sedStripBackslashes l))

/-- The text lines of the Makefile, exactly as in the source (this is what
`${MAKEFILE_LIST}` resolves to for the help target's grep). -/
def makefileLines : List String :=
  [ ".DEFAULT_GOAL := help",
    ".PHONY: help",
    "",
    "COMMAND_LIST := $\x7bMAKEFILE_LIST\x7d",
    "",
    "# if .env file exists, including secret infomations",
    "ifneq (\"$(wildcard .env)\",\"\")",
    "include .env",
    "endif",
    "",
    "help:",
    "\t@grep -E \x27^[a-zA-Z].*:\\s##\\s.*$$\x27 $\x7bCOMMAND_LIST\x7d |sed \x27s/\\\\//g\x27 |awk \x27BEGIN \x7bFS = \": ## \"\x7d; \x7bprintf \"\\033[36m%-30s\\033[0m %s\\n\", $$1, $$2\x7d\x27",
    "",
    "get_git_tag:",
    "\t$(eval git_ver = $(shell git describe --tags --dirty --abbrev=0))",
    "\t$(eval git_ver_verbose = $(shell git describe --tags --dirty))",
    "",
    ".PHONY: build-core",
    "build-core: ## build core",
    "\t@wasm-pack build core --target web" ]

/-- One line of a target's recipe: a plain external command, a shell
pipeline of commands, or a `$(eval var = $(shell cmd))` assignment (which
expands to the empty string, so nothing is echoed or printed). `silent`
records a leading `@`. -/
inductive RecipeLine where
  | execLine (silent : Bool) (prog : String) (args : List String)
  | pipeLine (silent : Bool) (stages : List (String × List String))
  | evalAssign (v : String) (shellCmd : String)
deriving DecidableEq, Repr

/-- A Makefile target: name, whether it is declared `.PHONY`, the text of
its `## ` annotation when its definition line carries one, and its recipe. -/
structure MakeTarget where
  name : String
  phony : Bool
  docText : Option String
  recipe : List RecipeLine
deriving DecidableEq, Repr

/-- The stages of the help target's pipeline, in source order. -/
def helpStages : List (String × List String) :=
  [ ("grep", ["-E", "^[a-zA-Z].*:\\s##\\s.*$$", "$\x7bCOMMAND_LIST\x7d"]),
    ("sed", ["s/\\\\//g"]),
    ("awk", ["BEGIN \x7bFS = \": ## \"\x7d; \x7bprintf \"\\033[36m%-30s\\033[0m %s\\n\", $$1, $$2\x7d"]) ]

/-- The `help` target (Makefile lines 11-12). -/
def helpTarget : MakeTarget :=
  { name := "help", phony := true, docText := none,
    recipe := [ .pipeLine true helpStages ] }

/-- The `get_git_tag` target (Makefile lines 14-16). -/
def get_git_tag : MakeTarget :=
  { name := "get_git_tag", phony := false, docText := none,
    recipe := [ .evalAssign "git_ver" "git describe --tags --dirty --abbrev=0",
                .evalAssign "git_ver_verbose" "git describe --tags --dirty" ] }

/-- The `build-core` target (Makefile lines 19-20). -/
def buildCore : MakeTarget :=
  { name := "build-core", phony := true, docText := some "build core",
    recipe := [ .execLine true "wasm-pack" ["build", "core", "--target", "web"] ] }

/-- The whole Makefile: `.DEFAULT_GOAL := help`, the raw lines bound to
`COMMAND_LIST`, and the three targets. -/
structure Makefile where
  defaultGoal : String
  commandList : List String
  targets : List MakeTarget
deriving DecidableEq, Repr

/-- The Makefile of the repository. -/
def makefile : Makefile :=
  { defaultGoal := "help",
    commandList := makefileLines,
    targets := [helpTarget, get_git_tag, buildCore] }

/-- The goal make runs: the named one, or the default goal when invoked
with no target. -/
def invokedGoal (mk : Makefile) : Option String → String
  | some g => g
  | none => mk.defaultGoal

/-- Exit code of a shell pipeline given the exit code of each command: the
shell reports the last stage's exit code (an empty pipeline succeeds). -/
def pipeExit (sh : String → List String → Nat) : List (String × List String) → Nat
  | [] => 0
  | [st] => sh st.1 st.2
  | _ :: rest => pipeExit sh rest

/-- Exit code of one recipe line, given the exit code the shell assigns to
each external command. An eval assignment expands to nothing and
succeeds. -/
def runLine (sh : String → List String → Nat) : RecipeLine → Nat
  | .execLine _ p as => sh p as
  | .pipeLine _ stages => pipeExit sh stages
  | .evalAssign _ _ => 0

/-- Exit code of a recipe: make stops at the first failing line and reports
its exit code; an exhausted recipe succeeds. -/
def runRecipe (sh : String → List String → Nat) : List RecipeLine → Nat
  | [] => 0
  | l :: ls => if runLine sh l = 0 then runRecipe sh ls else runLine sh l

/-- Whether a recipe line produces any direct output of its own: an eval
assignment expands to the empty string and prints nothing. -/
def producesDirectOutput : RecipeLine → Bool
  | .evalAssign _ _ => false
  | _ => true

/-- The make variables a recipe line assigns. -/
def lineAssigns : RecipeLine → List String
  | .evalAssign v _ => [v]
  | _ => []

/-- Every string literal appearing in a recipe line. -/
def lineStrings : RecipeLine → List String
  | .execLine _ p as => p :: as
  | .pipeLine _ stages => (stages.map (fun st => st.1 :: st.2)).flatten
  | .evalAssign v c => [v, c]

/-- Whether the pattern is a prefix of the character list. -/
def hasPrefixChars : List Char → List Char → Bool
  | [], _ => true
  | _ :: _, [] => false
  | p :: ps, c :: cs => p == c && hasPrefixChars ps cs

/-- Whether the pattern occurs as a contiguous sublist. -/
def containsSubChars (needle : List Char) : List Char → Bool
  | [] => needle.isEmpty
  | c :: cs => hasPrefixChars needle (c :: cs) || containsSubChars needle cs

/-- Whether the string `needle` occurs inside `hay`. -/
def strContainsSub (hay needle : String) : Bool :=
  containsSubChars needle.toList hay.toList

/-- Whether any string of the recipe line mentions the given variable
name. -/
def mentionsVar (v : String) (l : RecipeLine) : Bool :=
  (lineStrings l).any (fun s => strContainsSub s v)

/-- A one-line recipe's exit code is that line's exit code. -/
theorem runRecipe_single (sh : String → List String → Nat) (l : RecipeLine) :
    runRecipe sh [l] = runLine sh l := by
  by_cases h : runLine sh l = 0
  · simp [runRecipe, h]
  · simp [runRecipe, h]

/-- C7: `help` is the Makefile's default goal — invoking make with no
target runs the help target — and that target's single pipeline lists the
documented targets with their descriptions, the target's exit code being
exactly the pipeline's shell exit code. -/
theorem make_default_goal_is_help (sh : String → List String → Nat) :
    makefile.defaultGoal = "help" ∧
    invokedGoal makefile none = "help" ∧
    helpTarget.recipe = [RecipeLine.pipeLine true helpStages] ∧
    helpOutput makefile.commandList = [("build-core", "build core")] ∧
    runRecipe sh helpTarget.recipe = pipeExit sh helpStages := by
  refine ⟨rfl, rfl, rfl, by decide, ?_⟩
  exact runRecipe_single sh (RecipeLine.pipeLine true helpStages)

/-- C8: the `get_git_tag` target produces no direct output — its recipe is
exactly two `$(eval ...)` assignments, binding `git_ver` to the abbreviated
dirty-aware `git describe` form and `git_ver_verbose` to the verbose one —
and no other target of the Makefile mentions either variable. -/
theorem get_git_tag_assigns_only :
    get_git_tag.recipe =
      [RecipeLine.evalAssign "git_ver" "git describe --tags --dirty --abbrev=0",
       RecipeLine.evalAssign "git_ver_verbose" "git describe --tags --dirty"] ∧
    get_git_tag.recipe.all (fun l => !producesDirectOutput l) = true ∧
    (get_git_tag.recipe.map lineAssigns).flatten = ["git_ver", "git_ver_verbose"] ∧
    ((makefile.targets.filter (fun t => t.name != "get_git_tag")).all
        (fun t => t.recipe.all (fun l => !mentionsVar "git_ver" l))) = true := by
  decide

/-- C9: the `build-core` target's recipe is exactly one command, invoking
wasm-pack on the source directory `core` with web as the deployment target,
and the target's exit code is exactly the external tool's exit code. -/
theorem build_core_delegates_exit (sh : String → List String → Nat) :
    buildCore.recipe =
      [RecipeLine.execLine true "wasm-pack" ["build", "core", "--target", "web"]] ∧
    buildCore.recipe.length = 1 ∧
    runRecipe sh buildCore.recipe = sh "wasm-pack" ["build", "core", "--target", "web"] := by
  refine ⟨rfl, rfl, ?_⟩
  exact runRecipe_single sh (RecipeLine.execLine true "wasm-pack" ["build", "core", "--target", "web"])

/-- C10: the help listing contains exactly the lines carrying the
`: ## description` annotation — in this Makefile only the `build-core`
definition line — so neither `help` nor `get_git_tag` appears in the help
output. -/
theorem help_lists_only_annotated :
    grepHelpFilter makefileLines = ["build-core: ## build core"] ∧
    helpOutput makefileLines = [("build-core", "build core")] ∧
    matchesHelpRegex "build-core: ## build core" = true ∧
    matchesHelpRegex "help:" = false ∧
    matchesHelpRegex "get_git_tag:" = false ∧
    ((helpOutput makefileLines).all
        (fun e => e.1 != "help" && e.1 != "get_git_tag")) = true := by
  decide
